import Mathlib

/-!
Verification development for an educational repository holding three
independent Python scripts: a raw-socket HTTP client/parser
(`01_foundations/web_fundamentals/http_demo.py`) and two in-memory CRUD
APIs over users and posts (`02_backend/flask/basic_app.py` and
`02_backend/fastapi/basic_app.py`).  Each script is shallowly embedded
below: pure request/response logic becomes Lean functions, the global
mutable `users`/`posts` lists become explicit list arguments and results,
HTTP statuses become natural numbers, and Python exceptions become
`Option`.  Python string primitives are modelled over character lists so
that every definition evaluates inside the kernel.
-/

/-! ## Python string primitives -/

/-- Python `str.split(sep)` with a non-empty separator, over character
lists, with explicit fuel (any fuel at least the length of the input
gives the exact result, since every step consumes at least one
character): occurrences of the separator are cut out and empty pieces are
kept, so a trailing separator yields a trailing empty piece. -/
def splitCharsFuel (sep : List Char) : Nat → List Char → List (List Char)
  | _, [] => [[]]
  | 0, cs => [cs]
  | Nat.succ f, c :: rest =>
    if sep.isPrefixOf (c :: rest) then
      [] :: splitCharsFuel sep f ((c :: rest).drop sep.length)
    else
      match splitCharsFuel sep f rest with
      | [] => [[c]]
      | g :: gs => (c :: g) :: gs

/-- Python `s.split(sep)` for strings, via `splitCharsFuel` with enough
fuel. -/
def pySplit (s sep : String) : List String :=
  (splitCharsFuel sep.toList (s.toList.length + 1) s.toList).map
    (fun g => String.mk g)

/-- The inverse of splitting: `sep.join(parts)`, over character lists. -/
def joinWithChars (sep : List Char) : List (List Char) → List Char
  | [] => []
  | [x] => x
  | x :: y :: rest => x ++ sep ++ joinWithChars sep (y :: rest)

/-- Python `sep.join(parts)` for strings. -/
def pyJoin (sep : String) (parts : List String) : String :=
  String.mk (joinWithChars sep.toList (parts.map String.toList))

/-- The ASCII whitespace characters removed by Python `str.strip()`. -/
def isSpaceChar (c : Char) : Bool :=
  c = ' ' || c = '\t' || c = '\n' || c = '\r' || c = '\x0b' || c = '\x0c'

/-- Python `s.strip()`: drop whitespace from both ends. -/
def pyStrip (s : String) : String :=
  String.mk (((s.toList.dropWhile isSpaceChar).reverse.dropWhile
    isSpaceChar).reverse)

/-- Python `int(s)` on an optionally sign-prefixed string of decimal
digits (the only shapes that occur in an HTTP status line); any other
input raises, modelled as `none`. -/
def pyInt (s : String) : Option Int :=
  let digitsVal : List Char → Option Int := fun cs =>
    if cs ≠ [] ∧ cs.all Char.isDigit then
      some (Int.ofNat (cs.foldl (fun n c => n * 10 + (c.toNat - 48)) 0))
    else none
  match s.toList with
  | '-' :: rest => (digitsVal rest).map (fun n => -n)
  | '+' :: rest => digitsVal rest
  | cs => digitsVal cs

/-- Python `suffix in`-style check `s.endswith(t)`, used to state what a
serialized request ends with. -/
def pyEndsWith (s t : String) : Bool :=
  t.toList.isSuffixOf s.toList

/-! ## Embedding of `http_demo.py` -/

/-- Python dict insertion (`d[k] = v`) on an insertion-ordered
association list: an existing key is overwritten in place, a fresh key is
appended at the end. -/
def dictInsert (d : List (String × String)) (k v : String) : List (String × String) :=
  if d.any (fun p => p.1 = k) then
    d.map (fun p => if p.1 = k then (k, v) else p)
  else
    d ++ [(k, v)]

/-- The result shape of `parse_http_response` (`http_demo.py` lines
111-117): the dict returned on success. -/
structure HttpResponse where
  protocol : String
  status_code : Int
  status_message : String
  headers : List (String × String)
  body : String
deriving DecidableEq

/-- The header loop of `parse_http_response` (`http_demo.py` lines
98-106): walk `lines[1:]` with the Python index `i` starting at 1,
stopping at the first empty line and recording `body_start = i + 1`
there; a line containing a colon is split at the first colon and both
halves stripped.  When no empty line occurs the loop falls through and
`body_start` keeps its initial value 0. -/
def headerScan : List String → Nat → List (String × String) →
    List (String × String) × Nat
  | [], _, acc => (acc, 0)
  | l :: rest, i, acc =>
    if l = "" then (acc, i + 1)
    else
      let acc2 :=
        if l.toList.contains ':' then
          let parts := pySplit l ":"
          dictInsert acc (pyStrip (parts.headD ""))
            (pyStrip (pyJoin ":" parts.tail))
        else acc
      headerScan rest (i + 1) acc2

/-- `parse_http_response` (`http_demo.py` lines 85-117): split the raw
text on CRLF, read the first line as `protocol status_code
status_message` via `split(' ', 2)` (modelled by a full split whose tail
is rejoined with spaces; fewer than three pieces make the 3-way
unpacking raise, modelled as `none`), convert the status code with
`int(...)`, scan the headers, and rejoin everything from `body_start` on
with CRLF as the body. -/
def parse_http_response (response : String) : Option HttpResponse :=
  let lines := pySplit response "\r\n"
  match lines with
  | [] => none
  | status_line :: restLines =>
    match pySplit status_line " " with
    | p :: c :: restParts =>
      if restParts = [] then none
      else
        match pyInt c with
        | none => none
        | some code =>
          let scanned := headerScan restLines 1 []
          some
            { protocol := p
              status_code := code
              status_message := pyJoin " " restParts
              headers := scanned.1
              body := pyJoin "\r\n" (lines.drop scanned.2) }
    | _ => none

/-- The request text `make_http_request` serializes and sends
(`http_demo.py` lines 47-68), as a function of the parsed URL parts: the
list `request_lines` starts with the request line, `Host` and
`Connection: close`, then the caller headers in dict order; a truthy
body (Python `if body:` is false for `None` and for the empty string)
appends `Content-Length`, an empty element, and the body, while a falsy
body appends a single empty element; the list is joined with CRLF. -/
def make_http_request_text (method path host : String)
    (headers : List (String × String)) (body : Option String) : String :=
  let base := [method ++ " " ++ path ++ " HTTP/1.1",
               "Host: " ++ host,
               "Connection: close"]
  let withHeaders := base ++ headers.map (fun p => p.1 ++ ": " ++ p.2)
  let allLines :=
    match body with
    | some b =>
      if b = "" then withHeaders ++ [""]
      else withHeaders ++ ["Content-Length: " ++ toString b.length, "", b]
    | none => withHeaders ++ [""]
  pyJoin "\r\n" allLines

/-- C5: parsing the response whose status line is `HTTP/1.1 200 OK`,
with the single header line `Content-Type: text/plain`, a blank line and
the body `hello`, all separated by CRLF, yields protocol `HTTP/1.1`,
status code 200, status message `OK`, exactly that one header pair, and
body `hello`. -/
theorem C5_parse_example :
    parse_http_response
        "HTTP/1.1 200 OK\r\nContent-Type: text/plain\r\n\r\nhello" =
      some { protocol := "HTTP/1.1"
             status_code := 200
             status_message := "OK"
             headers := [("Content-Type", "text/plain")]
             body := "hello" } := by
  decide

/-- C6: the serialized request is not terminated by an empty line when no
body is given: at the concrete input `GET /` to host `example.com` with
no caller headers and no body, the request text ends after
`Connection: close` with a single CRLF, not with the CRLF CRLF that ends
a well-formed header block (the final empty element of `request_lines`
contributes only the separator in front of it under `"\r\n".join`); with
a body the serialization is correctly terminated. -/
theorem C6_missing_terminator :
    make_http_request_text "GET" "/" "example.com" [] none =
        "GET / HTTP/1.1\r\nHost: example.com\r\nConnection: close\r\n"
    ∧ pyEndsWith
        "GET / HTTP/1.1\r\nHost: example.com\r\nConnection: close\r\n"
        "\r\n\r\n" = false
    ∧ make_http_request_text "POST" "/p" "example.com"
        [("Content-Type", "application/json")] (some "hi") =
        "POST /p HTTP/1.1\r\nHost: example.com\r\nConnection: close\r\nContent-Type: application/json\r\nContent-Length: 2\r\n\r\nhi" := by
  refine ⟨by decide, by decide, by decide⟩

/-! ## Shared helper: Python `list.remove` -/

/-- Python `l.remove(x)`: remove the first element equal to `x` (the
`ValueError` case cannot arise at the call sites below, where `x` was
just found in the list; an absent `x` leaves the list unchanged here). -/
def pyRemove {α : Type} [DecidableEq α] : List α → α → List α
  | [], _ => []
  | a :: rest, x => if a = x then rest else a :: pyRemove rest x

/-- Removing an element from a list it is known not to occur in up to a
given position: `pyRemove` deletes exactly the distinguished occurrence. -/
theorem pyRemove_append_cons {α : Type} [DecidableEq α]
    (pre suf : List α) (x : α) (hx : x ∉ pre) :
    pyRemove (pre ++ x :: suf) x = pre ++ suf := by
  induction pre with
  | nil => simp [pyRemove]
  | cons a rest ih =>
    have hax : a ≠ x := fun h => hx (h ▸ List.mem_cons_self a rest)
    have hrest : x ∉ rest := fun h => hx (List.mem_cons_of_mem a h)
    simp [pyRemove, hax, ih hrest]

/-! ## Embedding of `flask/basic_app.py` -/

/-- A record of the Flask `users` list (`basic_app.py` lines 120-124):
the dict appended by `create_user`. -/
structure FUser where
  id : Int
  name : String
  email : String
deriving DecidableEq

/-- A record of the Flask `posts` list (`basic_app.py` lines 240-246):
the dict appended by `create_post`. -/
structure FPost where
  id : Int
  title : String
  content : String
  user_id : Int
  author : String
deriving DecidableEq

/-- The JSON body of a Flask create-user request; an absent field is
modelled as the empty string, which takes the same falsy branch as
Python `None` under `data.get(...)`. -/
structure FUserReq where
  name : String
  email : String
deriving DecidableEq

/-- The JSON body of a Flask create-post request; an absent `title` or
`content` is modelled as the empty string and an absent `user_id` as 0,
each taking the same falsy branch as Python `None`. -/
structure FPostReq where
  title : String
  content : String
  user_id : Int
deriving DecidableEq

/-- Flask `create_user` (`basic_app.py` lines 88-129): validate presence
of the body and of truthy `name` and `email` (400), reject a duplicate
email (409), otherwise append a record with `id = len(users) + 1` and
return it with 201.  Result: status, response record if created, and the
`users` list after the call. -/
def flask_create_user (users : List FUser) (data : Option FUserReq) :
    Nat × Option FUser × List FUser :=
  match data with
  | none => (400, none, users)
  | some d =>
    if d.name = "" then (400, none, users)
    else if d.email = "" then (400, none, users)
    else if users.any (fun u => u.email = d.email) then (409, none, users)
    else
      let new_user : FUser :=
        { id := (users.length : Int) + 1, name := d.name, email := d.email }
      (201, some new_user, users ++ [new_user])

/-- Flask `get_user` (`basic_app.py` lines 132-149): linear scan for the
first record with the requested id, 200 with the record or 404. -/
def flask_get_user (users : List FUser) (user_id : Int) : Nat × Option FUser :=
  match users.find? (fun u => u.id = user_id) with
  | some u => (200, some u)
  | none => (404, none)

/-- Flask `delete_user` (`basic_app.py` lines 152-172): find the first
record with the requested id; if present, `users.remove(user)` it and
answer 204, else 404.  Result: status and the `users` list after the
call. -/
def flask_delete_user (users : List FUser) (user_id : Int) : Nat × List FUser :=
  match users.find? (fun u => u.id = user_id) with
  | some u => (204, pyRemove users u)
  | none => (404, users)

/-- Flask `delete_user` seen over both global lists: the handler reads
and writes only the `users` global, so the `posts` global passes through
untouched. -/
def flask_delete_user_op (users : List FUser) (posts : List FPost)
    (user_id : Int) : Nat × List FUser × List FPost :=
  ((flask_delete_user users user_id).1, (flask_delete_user users user_id).2, posts)

/-- Flask `get_users` (`basic_app.py` lines 74-85): the handler consults
no query parameter and returns the whole `users` list together with
`len(users)` as the count. -/
def flask_get_users (users : List FUser) : List FUser × Nat :=
  (users, users.length)

/-- The Flask users-listing endpoint as invoked on a request that
carries optional `skip`, `limit` and `search` query parameters: the
handler body never reads `request.args`, so all three are ignored. -/
def flask_get_users_req (users : List FUser) (_skip _limit : Option Int)
    (_search : Option String) : List FUser × Nat :=
  flask_get_users users

/-- Python truthiness of an optional integer (`if user_id:`): false for
`None` and for 0. -/
def optIntTruthy : Option Int → Bool
  | none => false
  | some n => n != 0

/-- Flask `get_posts` (`basic_app.py` lines 179-201): filter by the
`user_id` query parameter only when it is truthy (absent or 0 leaves
the list unfiltered), and return the filtered list with its length as
the count. -/
def flask_get_posts (posts : List FPost) (user_id : Option Int) :
    List FPost × Nat :=
  let filtered :=
    if optIntTruthy user_id then
      posts.filter (fun p => p.user_id = user_id.getD 0)
    else posts
  (filtered, filtered.length)

/-- Flask `create_post` (`basic_app.py` lines 204-250): validate
presence of the body and of truthy `title`, `content` and `user_id`
(400), then look the user up by `data.user_id` (404 when absent),
otherwise append a post with `id = len(posts) + 1` and the found user's
name denormalized as `author`, answering 201.  Result: status, response
record if created, and the `posts` list after the call. -/
def flask_create_post (users : List FUser) (posts : List FPost)
    (data : Option FPostReq) : Nat × Option FPost × List FPost :=
  match data with
  | none => (400, none, posts)
  | some d =>
    if d.title = "" then (400, none, posts)
    else if d.content = "" then (400, none, posts)
    else if d.user_id = 0 then (400, none, posts)
    else
      match users.find? (fun u => u.id = d.user_id) with
      | none => (404, none, posts)
      | some u =>
        let new_post : FPost :=
          { id := (posts.length : Int) + 1, title := d.title,
            content := d.content, user_id := d.user_id, author := u.name }
        (201, some new_post, posts ++ [new_post])

/-- Flask `get_post` (`basic_app.py` lines 253-269): linear scan for the
first post with the requested id, 200 with the record or 404. -/
def flask_get_post (posts : List FPost) (post_id : Int) : Nat × Option FPost :=
  match posts.find? (fun p => p.id = post_id) with
  | some p => (200, some p)
  | none => (404, none)

/-! ## Embedding of `fastapi/basic_app.py` -/

/-- A record of the FastAPI `users` list (`basic_app.py` lines 157-163):
the dict appended by `create_user`; `created_at` (`datetime.now()`) is
an abstract timestamp supplied by the caller of the embedding. -/
structure AUser where
  id : Int
  name : String
  email : String
  age : Int
  created_at : Nat
deriving DecidableEq

/-- A record of the FastAPI `posts` list (`basic_app.py` lines 238-245). -/
structure APost where
  id : Int
  title : String
  content : String
  user_id : Int
  author : String
  created_at : Nat
deriving DecidableEq

/-- The `UserCreate` Pydantic model (`basic_app.py` lines 33-37); its
declarative constraints (non-empty name, email format, age range) are
enforced by the framework before the handler runs. -/
structure UserCreate where
  name : String
  email : String
  age : Int
deriving DecidableEq

/-- The `PostCreate` Pydantic model (`basic_app.py` lines 52-56). -/
structure PostCreate where
  title : String
  content : String
  user_id : Int
deriving DecidableEq

/-- Substring occurrence on character lists (Python `needle in hay`). -/
def charsContain (needle : List Char) : List Char → Bool
  | [] => needle.isEmpty
  | a :: t => needle.isPrefixOf (a :: t) || charsContain needle t

/-- Python `needle in hay` for strings. -/
def strContains (needle hay : String) : Bool :=
  charsContain needle.toList hay.toList

/-- FastAPI `get_users` (`basic_app.py` lines 99-124): when the `search`
query parameter is truthy, keep the users whose lowercased name contains
the lowercased search term, then slice `[skip : skip + limit]`; the
response is the resulting list alone (the `skip`/`limit` query bounds
`ge=0`, `ge=1`/`le=100` are enforced by the framework before the handler
runs, so both are naturals here). -/
def fastapi_get_users (users : List AUser) (skip limit : Nat)
    (search : Option String) : List AUser :=
  let filtered :=
    match search with
    | some q =>
      if q = "" then users
      else users.filter (fun u => strContains q.toLower u.name.toLower)
    | none => users
  (filtered.drop skip).take limit

/-- FastAPI `get_user` (`basic_app.py` lines 127-137): first record with
the requested id, or a 404 `HTTPException`. -/
def fastapi_get_user (users : List AUser) (user_id : Int) :
    Nat × Option AUser :=
  match users.find? (fun u => u.id = user_id) with
  | some u => (200, some u)
  | none => (404, none)

/-- FastAPI `create_user` (`basic_app.py` lines 140-166): reject a
duplicate email with a 409 `HTTPException`, otherwise append a record
with `id = len(users) + 1` and answer 201.  `now` stands for
`datetime.now()`. -/
def fastapi_create_user (users : List AUser) (u : UserCreate) (now : Nat) :
    Nat × Option AUser × List AUser :=
  if users.any (fun x => x.email = u.email) then (409, none, users)
  else
    let new_user : AUser :=
      { id := (users.length : Int) + 1, name := u.name, email := u.email,
        age := u.age, created_at := now }
    (201, some new_user, users ++ [new_user])

/-- FastAPI `delete_user` (`basic_app.py` lines 169-181): find the first
record with the requested id; if present, `users.remove(user)` it and
answer 204, else raise 404. -/
def fastapi_delete_user (users : List AUser) (user_id : Int) :
    Nat × List AUser :=
  match users.find? (fun u => u.id = user_id) with
  | some u => (204, pyRemove users u)
  | none => (404, users)

/-- FastAPI `delete_user` seen over both global lists: the handler reads
and writes only the `users` global, so the `posts` global passes through
untouched. -/
def fastapi_delete_user_op (users : List AUser) (posts : List APost)
    (user_id : Int) : Nat × List AUser × List APost :=
  ((fastapi_delete_user users user_id).1,
   (fastapi_delete_user users user_id).2, posts)

/-- FastAPI `get_posts` (`basic_app.py` lines 188-210): filter by the
optional `user_id` query parameter only when it is truthy (absent or 0
leaves the list unfiltered), then slice `[skip : skip + limit]`. -/
def fastapi_get_posts (posts : List APost) (user_id : Option Int)
    (skip limit : Nat) : List APost :=
  let filtered :=
    if optIntTruthy user_id then
      posts.filter (fun p => p.user_id = user_id.getD 0)
    else posts
  (filtered.drop skip).take limit

/-- FastAPI `get_post` (`basic_app.py` lines 213-223). -/
def fastapi_get_post (posts : List APost) (post_id : Int) :
    Nat × Option APost :=
  match posts.find? (fun p => p.id = post_id) with
  | some p => (200, some p)
  | none => (404, none)

/-- The `get_user_by_id` dependency (`basic_app.py` lines 76-81): look
the user up by a `user_id` that FastAPI supplies to the dependency as a
required query parameter (it is not read from the request body). -/
def fastapi_get_user_by_id (users : List AUser) (user_id : Int) :
    Option AUser :=
  users.find? (fun u => u.id = user_id)

/-- FastAPI `create_post` (`basic_app.py` lines 226-248): the dependency
resolves `dep_user_id` (the query parameter) against the user list,
raising 404 before the handler body runs when it is unknown; otherwise
the handler appends a post with `id = len(posts) + 1`, the body's
`post.user_id`, and the dependency-found user's name as `author`,
answering 201. -/
def fastapi_create_post (users : List AUser) (posts : List APost)
    (post : PostCreate) (dep_user_id : Int) (now : Nat) :
    Nat × Option APost × List APost :=
  match fastapi_get_user_by_id users dep_user_id with
  | none => (404, none, posts)
  | some u =>
    let new_post : APost :=
      { id := (posts.length : Int) + 1, title := post.title,
        content := post.content, user_id := post.user_id,
        author := u.name, created_at := now }
    (201, some new_post, posts ++ [new_post])

/-! ## Sequences of public user operations (Flask embedding) -/

/-- A public user operation against the Flask app: a create-user request
body, or a delete by identifier. -/
inductive FOp where
  | createUser (name email : String)
  | deleteUser (id : Int)

/-- One public operation applied to the pair of the live `users` list
and the log of every identifier a 201 response has ever returned. -/
def stepFOp (s : List FUser × List Int) (op : FOp) : List FUser × List Int :=
  match op with
  | .createUser n e =>
    let r := flask_create_user s.1 (some { name := n, email := e })
    match r.2.1 with
    | some u => (r.2.2, s.2 ++ [u.id])
    | none => (r.2.2, s.2)
  | .deleteUser k => ((flask_delete_user s.1 k).2, s.2)

/-- Run a sequence of public user operations from the empty store,
returning the final `users` list and the log of assigned identifiers. -/
def runFOps (ops : List FOp) : List FUser × List Int :=
  ops.foldl stepFOp ([], [])

/-- C1: after the reachable history create `a`, create `b`, delete user
1 (which assigned identifiers 1 and 2), creating a user with the fresh
email `c@x` does succeed with 201, but the identifier it is assigned is
`len(users) + 1 = 2`, which already occurs in the log of previously
assigned identifiers — it is not strictly greater than the previous
maximum 2; the FastAPI implementation assigns the identifier by the same
expression and repeats 2 on the corresponding store. -/
theorem C1_id_not_monotonic :
    runFOps [.createUser "a" "a@x", .createUser "b" "b@x", .deleteUser 1] =
        ([{ id := 2, name := "b", email := "b@x" }], [1, 2])
    ∧ ([{ id := 2, name := "b", email := "b@x" }] : List FUser).all
        (fun u => u.email ≠ "c@x") = true
    ∧ flask_create_user [{ id := 2, name := "b", email := "b@x" }]
        (some { name := "c", email := "c@x" }) =
        (201, some { id := 2, name := "c", email := "c@x" },
         [{ id := 2, name := "b", email := "b@x" },
          { id := 2, name := "c", email := "c@x" }])
    ∧ fastapi_create_user
        [{ id := 2, name := "b", email := "b@x", age := 30, created_at := 0 }]
        { name := "c", email := "c@x", age := 30 } 0 =
        (201, some { id := 2, name := "c", email := "c@x", age := 30,
                     created_at := 0 },
         [{ id := 2, name := "b", email := "b@x", age := 30, created_at := 0 },
          { id := 2, name := "c", email := "c@x", age := 30,
            created_at := 0 }])
    ∧ ¬ ((2 : Int) > 2) := by
  refine ⟨by decide, by decide, by decide, by decide, by decide⟩

/-- C4: after the reachable history create `a`, create `b`, create `c`,
delete user 1, create `d` (where `d` is assigned the already-used
identifier 3), deleting user 3 succeeds with 204 — yet an immediately
following get of identifier 3, with no operation in between, still
answers 200 with a record, because the delete removed only the first of
the two records carrying identifier 3. -/
theorem C4_deleted_id_still_found :
    (runFOps [.createUser "a" "a@x", .createUser "b" "b@x",
              .createUser "c" "c@x", .deleteUser 1,
              .createUser "d" "d@x"]).1 =
        [{ id := 2, name := "b", email := "b@x" },
         { id := 3, name := "c", email := "c@x" },
         { id := 3, name := "d", email := "d@x" }]
    ∧ flask_delete_user
        [{ id := 2, name := "b", email := "b@x" },
         { id := 3, name := "c", email := "c@x" },
         { id := 3, name := "d", email := "d@x" }] 3 =
        (204, [{ id := 2, name := "b", email := "b@x" },
               { id := 3, name := "d", email := "d@x" }])
    ∧ flask_get_user
        [{ id := 2, name := "b", email := "b@x" },
         { id := 3, name := "d", email := "d@x" }] 3 =
        (200, some { id := 3, name := "d", email := "d@x" }) := by
  refine ⟨by decide, by decide, by decide⟩

/-- C7: after the reachable history create `a`, create `b`, create `c`,
delete user 1, the create request for name `d`, email `d@x` succeeds
with 201 and identifier 3 — but an immediate get of identifier 3 returns
the untouched older record of user `c` (the first of the two records now
carrying identifier 3), whose name `c` differs from the submitted name
`d`. -/
theorem C7_roundtrip_mismatch :
    (runFOps [.createUser "a" "a@x", .createUser "b" "b@x",
              .createUser "c" "c@x", .deleteUser 1]).1 =
        [{ id := 2, name := "b", email := "b@x" },
         { id := 3, name := "c", email := "c@x" }]
    ∧ flask_create_user
        [{ id := 2, name := "b", email := "b@x" },
         { id := 3, name := "c", email := "c@x" }]
        (some { name := "d", email := "d@x" }) =
        (201, some { id := 3, name := "d", email := "d@x" },
         [{ id := 2, name := "b", email := "b@x" },
          { id := 3, name := "c", email := "c@x" },
          { id := 3, name := "d", email := "d@x" }])
    ∧ flask_get_user
        [{ id := 2, name := "b", email := "b@x" },
         { id := 3, name := "c", email := "c@x" },
         { id := 3, name := "d", email := "d@x" }] 3 =
        (200, some { id := 3, name := "c", email := "c@x" })
    ∧ ("c" : String) ≠ "d" := by
  refine ⟨by decide, by decide, by decide, by decide⟩

/-- C2 counterexample: with user `alice` holding email `a@x` stored, the
create-user request whose email is the already-registered `a@x` but
whose name is empty is answered 400 by the Flask implementation (the
presence check on `name` runs before the duplicate-email check), not
409 as the claim states for every such request. -/
theorem C2_status_cex :
    flask_create_user [{ id := 1, name := "alice", email := "a@x" }]
        (some { name := "", email := "a@x" }) =
      (400, none, [{ id := 1, name := "alice", email := "a@x" }])
    ∧ (400 : Nat) ≠ 409 := by
  refine ⟨by decide, by decide⟩

/-- C2 as amended: a duplicate-email create-user request that also
passes presence validation (non-empty name and email — in FastAPI the
handler input is validated by the framework) is answered 409 by both
implementations with the user list unchanged; and every duplicate-email
request, valid or not, leaves the Flask user list unchanged. -/
theorem C2_duplicate_email :
    (∀ (users : List FUser) (d : FUserReq),
        d.name ≠ "" → d.email ≠ "" →
        users.any (fun u => u.email = d.email) = true →
        flask_create_user users (some d) = (409, none, users))
    ∧ (∀ (users : List FUser) (d : FUserReq),
        users.any (fun u => u.email = d.email) = true →
        (flask_create_user users (some d)).2.2 = users)
    ∧ (∀ (users : List AUser) (u : UserCreate) (now : Nat),
        users.any (fun x => x.email = u.email) = true →
        fastapi_create_user users u now = (409, none, users)) := by
  refine ⟨?_, ?_, ?_⟩
  · intro users d h1 h2 hdup
    simp [flask_create_user, h1, h2, hdup]
  · intro users d hdup
    by_cases h1 : d.name = "" <;> by_cases h2 : d.email = "" <;>
      simp [flask_create_user, h1, h2, hdup]
  · intro users u now hdup
    simp [fastapi_create_user, hdup]

/-- C2 witness: the amended statement at a concrete store of one user
and a concrete duplicate-email request. -/
theorem C2_duplicate_email_witness :
    flask_create_user [{ id := 1, name := "alice", email := "a@x" }]
        (some { name := "bob", email := "a@x" }) =
      (409, none, [{ id := 1, name := "alice", email := "a@x" }]) :=
  C2_duplicate_email.1 [{ id := 1, name := "alice", email := "a@x" }]
    { name := "bob", email := "a@x" } (by decide) (by decide) (by decide)

/-- C3 counterexample: with empty user and post lists, the Flask
create-post request with non-empty title and content and `user_id = 0`
— an identifier carried by no stored user — is answered 400 (`user_id`
is falsy, so the presence check fires before the user lookup), not 404
as the claim states for every such request. -/
theorem C3_status_cex :
    flask_create_post [] []
        (some { title := "t", content := "body", user_id := 0 }) =
      (400, none, [])
    ∧ (400 : Nat) ≠ 404 := by
  refine ⟨by decide, by decide⟩

/-- C3 as amended: a create-post request that passes presence validation
(non-empty title and content, `user_id` nonzero) and names a user
identifier carried by no stored record is answered 404 by the Flask
implementation with the post list unchanged; in the FastAPI
implementation it is the dependency-supplied query `user_id` that is
looked up, and when it is unknown the request is likewise answered 404
with the post list unchanged. -/
theorem C3_unknown_user :
    (∀ (users : List FUser) (posts : List FPost) (d : FPostReq),
        d.title ≠ "" → d.content ≠ "" → d.user_id ≠ 0 →
        users.find? (fun u => u.id = d.user_id) = none →
        flask_create_post users posts (some d) = (404, none, posts))
    ∧ (∀ (users : List AUser) (posts : List APost) (p : PostCreate)
        (dep_user_id : Int) (now : Nat),
        fastapi_get_user_by_id users dep_user_id = none →
        fastapi_create_post users posts p dep_user_id now =
          (404, none, posts)) := by
  refine ⟨?_, ?_⟩
  · intro users posts d h1 h2 h3 hfind
    simp [flask_create_post, h1, h2, h3, hfind]
  · intro users posts p dep_user_id now hfind
    simp [fastapi_create_post, hfind]

/-- C3 witness: the amended statement at the empty store and a concrete
request naming the unknown user identifier 5. -/
theorem C3_unknown_user_witness :
    flask_create_post [] []
        (some { title := "t", content := "body", user_id := 5 }) =
      (404, none, []) :=
  C3_unknown_user.1 [] [] { title := "t", content := "body", user_id := 5 }
    (by decide) (by decide) (by decide) (by decide)

/-- C8 counterexample: on a store of two users, a request to the Flask
listing endpoint carrying `skip=1` (and `limit=10`) is answered with
the full two-element user list — not with the one-element paginated
list the claim requires the response to contain, since the handler
reads no query parameter. -/
theorem C8_pagination_cex :
    (flask_get_users_req
        [{ id := 1, name := "a", email := "a@x" },
         { id := 2, name := "b", email := "b@x" }]
        (some 1) (some 10) none).1 =
      [{ id := 1, name := "a", email := "a@x" },
       { id := 2, name := "b", email := "b@x" }]
    ∧ ([{ id := 1, name := "a", email := "a@x" },
        { id := 2, name := "b", email := "b@x" }] : List FUser) ≠
      [{ id := 2, name := "b", email := "b@x" }] := by
  refine ⟨by decide, by decide⟩

/-- C8 as amended: the two listing endpoints differ. The Flask endpoint
ignores any skip, limit or search query parameters (its response is the
same whatever they are) and returns the full user list together with
its count; the FastAPI endpoint honours skip, limit and search,
returning only a filtered page — every returned user is a stored user
and at most `limit` of them are returned — with no count. -/
theorem C8_listing_shape :
    (∀ (users : List FUser) (s1 s2 l1 l2 : Option Int)
        (q1 q2 : Option String),
        flask_get_users_req users s1 l1 q1 = flask_get_users_req users s2 l2 q2)
    ∧ (∀ (users : List FUser) (s l : Option Int) (q : Option String),
        (flask_get_users_req users s l q).1 = users ∧
        (flask_get_users_req users s l q).2 = users.length)
    ∧ (∀ (users : List AUser) (skip limit : Nat) (q : Option String),
        (fastapi_get_users users skip limit q).length ≤ limit ∧
        ∀ u ∈ fastapi_get_users users skip limit q, u ∈ users) := by
  refine ⟨fun users s1 s2 l1 l2 q1 q2 => rfl,
          fun users s l q => ⟨rfl, rfl⟩, ?_⟩
  intro users skip limit q
  have key : ∀ (l : List AUser), ∀ u ∈ (l.drop skip).take limit, u ∈ l :=
    fun l u hu => List.mem_of_mem_drop (List.mem_of_mem_take hu)
  constructor
  · show ((_ : List AUser).take limit).length ≤ limit
    rw [List.length_take]
    exact min_le_left _ _
  · intro u hu
    simp only [fastapi_get_users] at hu
    cases q with
    | none => exact key users u hu
    | some s =>
      have hred : (match some s with
          | some q =>
            if q = "" then users
            else List.filter (fun u => strContains q.toLower u.name.toLower) users
          | none => users) =
          if s = "" then users
          else List.filter (fun u => strContains s.toLower u.name.toLower) users := rfl
      rw [hred] at hu
      by_cases hs : s = ""
      · rw [if_pos hs] at hu
        exact key users u hu
      · rw [if_neg hs] at hu
        exact List.mem_of_mem_filter (key _ u hu)

/-- A successful linear-scan find, decomposed: the list splits around
the found element, everything in front of it fails the predicate, and
Python `remove` of the found element deletes exactly that occurrence. -/
theorem find_remove_decomp {α : Type} [DecidableEq α] (p : α → Bool)
    (l : List α) (u : α) (h : l.find? p = some u) :
    ∃ pre suf, l = pre ++ u :: suf ∧ (∀ v ∈ pre, p v = false) ∧
      pyRemove l u = pre ++ suf := by
  obtain ⟨hpu, pre, suf, hl, hpre⟩ := List.find?_eq_some.mp h
  refine ⟨pre, suf, hl, ?_, ?_⟩
  · intro v hv
    have hb := hpre v hv
    simpa using hb
  · have hnot : u ∉ pre := by
      intro hmem
      have hb := hpre u hmem
      simp [hpu] at hb
    rw [hl]
    exact pyRemove_append_cons pre suf u hnot

/-- C9: in both implementations, a delete of a stored user identifier
`k` answers 204, removes exactly the first user record carrying `k`
(every record in front of it has a different identifier; all other
records survive in order), and leaves the post list untouched, so every
post — dangling `user_id` or not — is retrieved afterwards exactly as
before. -/
theorem C9_delete_frame :
    (∀ (users : List FUser) (posts : List FPost) (k : Int),
        (∃ u ∈ users, u.id = k) →
        (flask_delete_user_op users posts k).1 = 204 ∧
        (flask_delete_user_op users posts k).2.2 = posts ∧
        (∃ pre u suf, users = pre ++ u :: suf ∧ u.id = k ∧
            (∀ v ∈ pre, v.id ≠ k) ∧
            (flask_delete_user_op users posts k).2.1 = pre ++ suf) ∧
        (∀ pid, flask_get_post (flask_delete_user_op users posts k).2.2 pid =
            flask_get_post posts pid))
    ∧ (∀ (users : List AUser) (posts : List APost) (k : Int),
        (∃ u ∈ users, u.id = k) →
        (fastapi_delete_user_op users posts k).1 = 204 ∧
        (fastapi_delete_user_op users posts k).2.2 = posts ∧
        (∃ pre u suf, users = pre ++ u :: suf ∧ u.id = k ∧
            (∀ v ∈ pre, v.id ≠ k) ∧
            (fastapi_delete_user_op users posts k).2.1 = pre ++ suf) ∧
        (∀ pid, fastapi_get_post (fastapi_delete_user_op users posts k).2.2 pid =
            fastapi_get_post posts pid)) := by
  constructor
  · intro users posts k hex
    have hfind : ∃ u, users.find? (fun u => u.id = k) = some u := by
      rcases hres : users.find? (fun u => u.id = k) with _ | v
      · exfalso
        rw [List.find?_eq_none] at hres
        obtain ⟨u, hu, hid⟩ := hex
        exact hres u hu (by simp [hid])
      · exact ⟨v, hres⟩
    obtain ⟨u, hu⟩ := hfind
    obtain ⟨pre, suf, hl, hpre, hrem⟩ := find_remove_decomp _ users u hu
    have hid : u.id = k := by
      have hb := List.find?_some hu
      simpa using hb
    refine ⟨?_, rfl, ⟨pre, u, suf, hl, hid, ?_, ?_⟩, fun pid => rfl⟩
    · simp [flask_delete_user_op, flask_delete_user, hu]
    · intro v hv
      exact of_decide_eq_false (hpre v hv)
    · simp [flask_delete_user_op, flask_delete_user, hu, hrem]
  · intro users posts k hex
    have hfind : ∃ u, users.find? (fun u => u.id = k) = some u := by
      rcases hres : users.find? (fun u => u.id = k) with _ | v
      · exfalso
        rw [List.find?_eq_none] at hres
        obtain ⟨u, hu, hid⟩ := hex
        exact hres u hu (by simp [hid])
      · exact ⟨v, hres⟩
    obtain ⟨u, hu⟩ := hfind
    obtain ⟨pre, suf, hl, hpre, hrem⟩ := find_remove_decomp _ users u hu
    have hid : u.id = k := by
      have hb := List.find?_some hu
      simpa using hb
    refine ⟨?_, rfl, ⟨pre, u, suf, hl, hid, ?_, ?_⟩, fun pid => rfl⟩
    · simp [fastapi_delete_user_op, fastapi_delete_user, hu]
    · intro v hv
      exact of_decide_eq_false (hpre v hv)
    · simp [fastapi_delete_user_op, fastapi_delete_user, hu, hrem]

/-- C9 witness: the Flask half of the frame statement at a store of one
user and one post referencing that user. -/
theorem C9_delete_frame_witness :
    (flask_delete_user_op [{ id := 1, name := "a", email := "a@x" }]
        [{ id := 1, title := "t", content := "body", user_id := 1,
           author := "a" }] 1).1 = 204 ∧
    (flask_delete_user_op [{ id := 1, name := "a", email := "a@x" }]
        [{ id := 1, title := "t", content := "body", user_id := 1,
           author := "a" }] 1).2.2 =
      [{ id := 1, title := "t", content := "body", user_id := 1,
         author := "a" }] ∧
    (∃ pre u suf,
        ([{ id := 1, name := "a", email := "a@x" }] : List FUser) =
          pre ++ u :: suf ∧ u.id = 1 ∧ (∀ v ∈ pre, v.id ≠ 1) ∧
        (flask_delete_user_op [{ id := 1, name := "a", email := "a@x" }]
            [{ id := 1, title := "t", content := "body", user_id := 1,
               author := "a" }] 1).2.1 = pre ++ suf) ∧
    (∀ pid,
        flask_get_post
            (flask_delete_user_op [{ id := 1, name := "a", email := "a@x" }]
                [{ id := 1, title := "t", content := "body", user_id := 1,
                   author := "a" }] 1).2.2 pid =
          flask_get_post
            [{ id := 1, title := "t", content := "body", user_id := 1,
               author := "a" }] pid) :=
  C9_delete_frame.1 [{ id := 1, name := "a", email := "a@x" }]
    [{ id := 1, title := "t", content := "body", user_id := 1,
       author := "a" }] 1 (by decide)

/-- C10: a `user_id` filter value of 0 is falsy in Python, so both
post-listing endpoints treat it exactly like an absent filter: the
Flask endpoint returns the full post list with its count, and the
FastAPI endpoint returns the full list restricted only by pagination. -/
theorem C10_zero_filter :
    ∀ (fposts : List FPost) (aposts : List APost) (skip limit : Nat),
      flask_get_posts fposts (some 0) = flask_get_posts fposts none ∧
      flask_get_posts fposts (some 0) = (fposts, fposts.length) ∧
      fastapi_get_posts aposts (some 0) skip limit =
        fastapi_get_posts aposts none skip limit ∧
      fastapi_get_posts aposts (some 0) skip limit =
        (aposts.drop skip).take limit := by
  intro fposts aposts skip limit
  exact ⟨rfl, rfl, rfl, rfl⟩
